import Mathlib

/-!
Verification development for the REACT ground-control-station core
(`react/core/mavlink_manager.py`, `react/core/app.py`, `react/core/uav_state.py`,
`react/core/command_interface.py`, `react/core/safety_monitor.py`).

Each definition is a shallow embedding of the corresponding Python function,
keeping the source's control flow, field names and constants.  Booleans stand
for Python truthiness of the flags actually read by the embedded code, `Option`
fields stand for instance attributes that may not have been assigned yet
(`none` = attribute absent, so a read raises `AttributeError` while an
assignment creates the attribute), `Except`/explicit error components stand for
raised exceptions, and `ℚ` stands for the float timestamps produced by
`time.time()`.
-/

namespace React

/-! ## Transport arbiter (`core/mavlink_manager.py`)

`send_command` / `send_command_telem1` / `send_command_telem2` /
`should_use_telem2` read the manager's two connection handles, the per-vehicle
connectivity flag kept in `UAVState.telem1_status`, and the derived Telem2
health flag `uav_telem2_status[system_id]`.  The embedding records exactly the
flags those functions branch on. -/

/-- The flags of `MAVLinkManager` and of the target vehicle that the command
routing functions read. -/
structure ArbiterState where
  /-- `self.telem1_connection is not None` -/
  telem1_connection : Bool
  /-- `self.telem2_connection is not None` -/
  telem2_connection : Bool
  /-- `uav_id in self.uav_states` -/
  uav_known : Bool
  /-- `self.uav_states[uav_id].is_connected()` (the `telem1_status` flag) -/
  uav_telem1_connected : Bool
  /-- `self.uav_telem2_status.get(system_id, False)` -/
  uav_telem2_status : Bool
deriving DecidableEq

/-- The command dict's `'type'` key, as dispatched by `send_command_telem2`. -/
inductive CommandType
  | set_mode
  | command_long
  | other
deriving DecidableEq

/-- Which wire channel `send_command` ended up using. -/
inductive Channel
  | telem1
  | telem2
  | noChannel
deriving DecidableEq

/-- Embeds `MAVLinkManager._is_telem1_available` (mavlink_manager.py:147-149). -/
def is_telem1_available (m : ArbiterState) : Bool :=
  m.telem1_connection

/-- Embeds `MAVLinkManager.is_connected` (mavlink_manager.py:651-653). -/
def is_connected (m : ArbiterState) : Bool :=
  m.uav_known && m.uav_telem1_connected

/-- Embeds `MAVLinkManager.get_telem2_status` (mavlink_manager.py:655-664). -/
def get_telem2_status (m : ArbiterState) : Bool :=
  if !m.uav_known then false else m.uav_telem2_status

/-- Embeds `MAVLinkManager.should_use_telem2` (mavlink_manager.py:666-683). -/
def should_use_telem2 (m : ArbiterState) : Bool :=
  if !m.telem2_connection then false
  else
    let telem1_available := is_telem1_available m && is_connected m
    let telem2_good := get_telem2_status m
    if !telem1_available && telem2_good then true else false

/-- Number of `command_long_send` calls the Telem2 broadcast loop performs
before either finishing or hitting the first transport-level exception:
`for i in range(3): ... send ...` aborts at the first raise
(mavlink_manager.py:568-598).  `o k` is `true` when the `k`-th wire write
succeeds (does not raise). -/
def telem2_send_count (o : ℕ → Bool) : ℕ :=
  if o 0 then (if o 1 then 3 else 2) else 1

/-- Embeds `MAVLinkManager.send_command_telem2` (mavlink_manager.py:547-608).
Returns the boolean result together with the number of wire transmissions
performed.  A wire write that raises lands in the `except` block, which
returns `False`; an unsupported command type falls through to the final
`return False` with no transmission. -/
def send_command_telem2 (m : ArbiterState) (ct : CommandType) (o : ℕ → Bool) :
    Bool × ℕ :=
  if !m.telem2_connection then (false, 0)
  else if !m.uav_known then (false, 0)
  else
    match ct with
    | .set_mode => (o 0 && o 1 && o 2, telem2_send_count o)
    | .command_long => (o 0 && o 1 && o 2, telem2_send_count o)
    | .other => (false, 0)

/-- Embeds `MAVLinkManager.send_command` (mavlink_manager.py:685-718).
`telem1_result` is the boolean `send_command_telem1` would return when that
branch is taken.  Result: command outcome, channel used, Telem2 wire sends. -/
def send_command (m : ArbiterState) (ct : CommandType) (o : ℕ → Bool)
    (telem1_result : Bool) : Bool × Channel × ℕ :=
  if !m.uav_known then (false, .noChannel, 0)
  else
    let telem1_available := is_telem1_available m && is_connected m
    let telem2_available := should_use_telem2 m
    if telem1_available then (telem1_result, .telem1, 0)
    else if telem2_available then
      let r := send_command_telem2 m ct o
      (r.1, .telem2, r.2)
    else (false, .noChannel, 0)

/-! ## Vehicle state registry (`core/uav_state.py`)

`UAVState.__init__` assigns the fields listed below.  The mission bookkeeping
attributes (`original_waypoint_indices`, `uploaded_waypoint_indices`,
`reached_waypoint_indices`, `current_waypoint`, `total_waypoints`) are *not*
assigned by `__init__`; they are created dynamically by `App.load_mission`,
the resume operations, and the `MISSION_CURRENT` / `MISSION_COUNT` handlers.
They are embedded as `Option` fields with `none` meaning "attribute absent":
reading an absent attribute raises `AttributeError`, assigning creates it. -/

/-- The per-vehicle record of `core/uav_state.py`, fields as in
`UAVState.__init__` (uav_state.py:1-42) plus the dynamically created mission
bookkeeping attributes. -/
structure UAVState where
  uav_id : String
  latitude : ℚ := 0
  longitude : ℚ := 0
  altitude : ℚ := 0
  height : ℚ := 0
  mode : String := "DISARMED"
  heading : ℚ := 0
  ground_speed : ℚ := 0
  vertical_speed : ℚ := 0
  roll : ℚ := 0
  pitch : ℚ := 0
  yaw : ℚ := 0
  gps_fix_type : Int := 0
  satellites_visible : Int := 0
  armed : Bool := false
  home_lat : ℚ := 0
  home_lng : ℚ := 0
  home_alt : ℚ := 0
  telem1_status : Bool := false
  telem2_status : Bool := false
  /-- `self.last_update = None` until the first `update_telemetry`. -/
  last_update : Option ℚ := none
  battery_status : Int := 100
  mission_start_time : Option ℚ := none
  mission_elapsed_time : ℚ := 0
  mission_running : Bool := false
  /-- Timestamp when an ARM command was sent, `None` when no ARM pending. -/
  pending_arm_command : Option ℚ := none
  /-- Timestamp when a DISARM command was sent, `None` when none pending. -/
  pending_disarm_command : Option ℚ := none
  command_timeout : ℚ := 3
  remaining_battery_time : ℚ := 0
  average_power_consumption : ℚ := 1
  /-- Created only by `App.load_mission` (app.py:245); absent on a fresh state. -/
  original_waypoint_indices : Option (List Int) := none
  /-- Created only by `App.load_mission` / the resume operations; absent on a
  fresh state. -/
  uploaded_waypoint_indices : Option (List Int) := none
  /-- Created only by `App.load_mission`; absent on a fresh state. -/
  reached_waypoint_indices : Option (List Int) := none
  /-- Created by assignment in the `MISSION_CURRENT` handler; absent before. -/
  current_waypoint : Option Int := none
  /-- Created by assignment in the `MISSION_COUNT` handler; absent before. -/
  total_waypoints : Option Int := none

/-- Embeds `UAVState.__init__` with its default arguments (uav_state.py:1-42). -/
def UAVState.init (uav_id : String) : UAVState :=
  { uav_id := uav_id }

/-- The keyword arguments accepted by `UAVState.update_telemetry`
(uav_state.py:44-46); `none` = argument not passed. -/
structure TelemetryUpdate where
  latitude : Option ℚ := none
  longitude : Option ℚ := none
  altitude : Option ℚ := none
  height : Option ℚ := none
  mode : Option String := none
  battery_status : Option Int := none
  heading : Option ℚ := none
  ground_speed : Option ℚ := none
  vertical_speed : Option ℚ := none
  roll : Option ℚ := none
  pitch : Option ℚ := none
  yaw : Option ℚ := none
  gps_fix_type : Option Int := none
  satellites_visible : Option Int := none
  armed : Option Bool := none
  telem1_status : Option Bool := none
  telem2_status : Option Bool := none

/-- Embeds `UAVState.update_remaining_battery_time` (uav_state.py:131-138). -/
def update_remaining_battery_time (s : UAVState) : UAVState :=
  if 0 < s.battery_status ∧ 0 < s.average_power_consumption then
    { s with remaining_battery_time :=
        (s.battery_status : ℚ) / (s.average_power_consumption / 60) }
  else
    { s with remaining_battery_time := 0 }

/-- Embeds `UAVState.set_home_position` (uav_state.py:144-151). -/
def set_home_position (s : UAVState) (latitude longitude altitude : Option ℚ) :
    UAVState :=
  { s with home_lat := latitude.getD s.home_lat,
           home_lng := longitude.getD s.home_lng,
           home_alt := altitude.getD s.home_alt }

/-- Embeds `UAVState.update_home_position_if_needed` (uav_state.py:153-157). -/
def update_home_position_if_needed (s : UAVState) : UAVState :=
  if s.home_lat = 0 ∧ s.home_lng = 0 ∧ 3 ≤ s.gps_fix_type ∧
      s.latitude ≠ 0 ∧ s.longitude ≠ 0 then
    set_home_position s (some s.latitude) (some s.longitude) (some s.altitude)
  else s

/-- Embeds `UAVState.update_telemetry` (uav_state.py:44-90): stamps
`last_update` with the current time `t`, merges every passed argument, updates
the remaining battery time when `battery_status` was passed, and finally runs
`update_home_position_if_needed`. -/
def update_telemetry (s : UAVState) (t : ℚ) (u : TelemetryUpdate) : UAVState :=
  let s := { s with
    last_update := some t,
    latitude := u.latitude.getD s.latitude,
    longitude := u.longitude.getD s.longitude,
    altitude := u.altitude.getD s.altitude,
    height := u.height.getD s.height,
    mode := u.mode.getD s.mode,
    battery_status := u.battery_status.getD s.battery_status,
    heading := u.heading.getD s.heading,
    ground_speed := u.ground_speed.getD s.ground_speed,
    vertical_speed := u.vertical_speed.getD s.vertical_speed,
    roll := u.roll.getD s.roll,
    pitch := u.pitch.getD s.pitch,
    yaw := u.yaw.getD s.yaw,
    gps_fix_type := u.gps_fix_type.getD s.gps_fix_type,
    satellites_visible := u.satellites_visible.getD s.satellites_visible,
    armed := u.armed.getD s.armed,
    telem1_status := u.telem1_status.getD s.telem1_status,
    telem2_status := u.telem2_status.getD s.telem2_status }
  let s := if u.battery_status.isSome then update_remaining_battery_time s else s
  update_home_position_if_needed s

/-- Python truthiness plus window test of
`self.pending_arm_command and (current_time - self.pending_arm_command) <
self.command_timeout` (uav_state.py:99). -/
def arm_pending_active (s : UAVState) (t : ℚ) : Bool :=
  match s.pending_arm_command with
  | some ta => decide (t - ta < s.command_timeout)
  | none => false

/-- Truthiness plus window test for the pending DISARM marker
(uav_state.py:103). -/
def disarm_pending_active (s : UAVState) (t : ℚ) : Bool :=
  match s.pending_disarm_command with
  | some td => decide (t - td < s.command_timeout)
  | none => false

/-- Truthiness plus expiry test of `self.pending_arm_command and
(current_time - self.pending_arm_command) >= self.command_timeout`
(uav_state.py:109). -/
def arm_pending_expired (s : UAVState) (t : ℚ) : Bool :=
  match s.pending_arm_command with
  | some ta => decide (s.command_timeout ≤ t - ta)
  | none => false

/-- Expiry test for the pending DISARM marker (uav_state.py:111). -/
def disarm_pending_expired (s : UAVState) (t : ℚ) : Bool :=
  match s.pending_disarm_command with
  | some td => decide (s.command_timeout ≤ t - td)
  | none => false

/-- The kwargs rewriting done by `UAVState.update_telemetry_protected`
(uav_state.py:97-106): while an ARM is pending and inside the window, an
incoming `armed=False` is overridden to `True`; symmetrically for DISARM. -/
def protected_kwargs (s : UAVState) (t : ℚ) (u : TelemetryUpdate) :
    TelemetryUpdate :=
  match u.armed with
  | none => u
  | some a =>
    if arm_pending_active s t then
      (if a = false then { u with armed := some true } else u)
    else if disarm_pending_active s t then
      (if a = true then { u with armed := some false } else u)
    else u

/-- Embeds `UAVState.update_telemetry_protected` (uav_state.py:92-115):
rewrite the kwargs under the pending-command windows, clear expired pending
markers, then update telemetry normally. -/
def update_telemetry_protected (s : UAVState) (t : ℚ) (u : TelemetryUpdate) :
    UAVState :=
  let u2 := protected_kwargs s t u
  let s1 := { s with
    pending_arm_command :=
      if arm_pending_expired s t then none else s.pending_arm_command,
    pending_disarm_command :=
      if disarm_pending_expired s t then none else s.pending_disarm_command }
  update_telemetry s1 t u2

/-- Embeds `UAVState.set_pending_arm_command` (uav_state.py:117-122). -/
def set_pending_arm_command (s : UAVState) (t : ℚ) : UAVState :=
  { s with pending_arm_command := some t,
           pending_disarm_command := none,
           armed := true }

/-- Embeds `UAVState.set_pending_disarm_command` (uav_state.py:124-129). -/
def set_pending_disarm_command (s : UAVState) (t : ℚ) : UAVState :=
  { s with pending_disarm_command := some t,
           pending_arm_command := none,
           armed := false }

/-- Embeds `UAVState.start_mission_timer` (uav_state.py:233-238). -/
def start_mission_timer (s : UAVState) (t : ℚ) : UAVState :=
  { s with mission_start_time := some t,
           mission_elapsed_time := 0,
           mission_running := true }

/-- Embeds `UAVState.stop_mission_timer` (uav_state.py:240-245). -/
def stop_mission_timer (s : UAVState) (t : ℚ) : UAVState :=
  let s :=
    if s.mission_running ∧ s.mission_start_time.isSome then
      { s with mission_elapsed_time := t - s.mission_start_time.getD 0 }
    else s
  { s with mission_running := false }

/-- Embeds `CommandInterface.arm_uav` (command_interface.py:24-44):
for an unknown vehicle it returns `False` without touching any state; for a
known vehicle it performs the optimistic update `set_pending_arm_command`
(then emits the ARM command request) and returns `True`.  `uav_known` stands
for `uav_id in self.uav_states`. -/
def arm_uav (uav_known : Bool) (s : UAVState) (t : ℚ) : Bool × UAVState :=
  if !uav_known then (false, s)
  else (true, set_pending_arm_command s t)

/-! ## Receive loop message dispatch (`core/mavlink_manager.py`)

`_process_mavlink_message` mutates the shared `UAVState` object in place; an
exception raised partway through leaves the mutations already performed in
place.  The embedding therefore returns the (possibly partially updated) state
together with `some errText` when the handler raised.  `_loop`
(mavlink_manager.py:123-145) wraps the handler in `try/except`, so a raised
`AttributeError` is logged as a Telem1 read error and the loop carries on with
whatever state the handler left behind. -/

/-- The inbound Telem1 message kinds embedded here: the heartbeat branch and
the two mission-progress branches of `_process_mavlink_message`
(mavlink_manager.py:349-383, 437-468).  `heartbeat` carries the decoded
flight mode and armed flag. -/
inductive MavMessage
  | heartbeat (mode : String) (armed : Bool)
  | missionCurrent (seq : Int)
  | missionItemReached (seq : ℕ)

/-- The flight modes treated as "flying" by the mission-timer logic
(mavlink_manager.py:370). -/
def flying_modes : List String := ["GUIDED", "AUTO", "LOITER", "POSHOLD", "ALT_HOLD"]

/-- The mission-timer part of the `HEARTBEAT` branch
(mavlink_manager.py:363-383), applied after `update_telemetry_protected`.
`previous_mode`/`previous_armed` are read before the update; `new_armed` is
the raw heartbeat value. -/
def heartbeat_timer_logic (previous_mode : String) (previous_armed : Bool)
    (new_mode : String) (new_armed : Bool) (s : UAVState) (t : ℚ) : UAVState :=
  let s :=
    if previous_armed = false ∧ new_armed = true then s
    else if new_armed = true ∧ previous_mode ≠ new_mode then
      (if new_mode ∈ flying_modes ∧ s.mission_running = false then
        start_mission_timer s t
      else s)
    else s
  if previous_armed = true ∧ new_armed = false ∧ s.mission_running then
    stop_mission_timer s t
  else if new_armed = true ∧ new_mode = "LAND" ∧ previous_mode ≠ "LAND" ∧
      s.mission_running then
    stop_mission_timer s t
  else s

/-- Embeds the `HEARTBEAT`, `MISSION_CURRENT` and `MISSION_ITEM_REACHED`
branches of `MAVLinkManager._process_mavlink_message`
(mavlink_manager.py:349-383, 437-468).  Returns the updated state and
`some msg` when the branch raised (`AttributeError` on reading a mission
bookkeeping attribute that `load_mission` has not created yet); mutations
performed before the raise persist, as they do on the shared Python object. -/
def process_mavlink_message (s : UAVState) (msg : MavMessage) (t : ℚ) :
    UAVState × Option String :=
  match msg with
  | .heartbeat new_mode new_armed =>
    let previous_mode := s.mode
    let previous_armed := s.armed
    let s := update_telemetry_protected s t
      { mode := some new_mode, armed := some new_armed }
    (heartbeat_timer_logic previous_mode previous_armed new_mode new_armed s t,
     none)
  | .missionCurrent seq =>
    -- `state.current_waypoint = msg.seq` is a plain attribute assignment:
    -- it succeeds whether or not the attribute already exists.
    ({ s with current_waypoint := some seq }, none)
  | .missionItemReached seq =>
    match s.uploaded_waypoint_indices with
    | none => (s, some "AttributeError: uploaded_waypoint_indices")
    | some uploaded =>
      if hseq : seq < uploaded.length then
        let reached_wp_index := uploaded.get ⟨seq, hseq⟩
        match s.reached_waypoint_indices with
        | none => (s, some "AttributeError: reached_waypoint_indices")
        | some reached =>
          -- append if absent, then `list.sort()`
          let reached2 :=
            if reached_wp_index ∈ reached then reached
            else (reached ++ [reached_wp_index]).mergeSort (· ≤ ·)
          let s := { s with reached_waypoint_indices := some reached2 }
          -- the progress computation then reads original_waypoint_indices
          match s.original_waypoint_indices with
          | none => (s, some "AttributeError: original_waypoint_indices")
          | some _ => (s, none)
      else
        -- out-of-range seq: only a warning is logged
        (s, none)

/-- One receive-loop iteration around the handler (mavlink_manager.py:128-134):
the `except` clause logs "Telem1 read error" and keeps whatever state the
handler produced before raising. -/
def loop_step (s : UAVState) (msg : MavMessage) (t : ℚ) : UAVState :=
  (process_mavlink_message s msg t).1

/-! ## Mission tracking initialisation and resume state update (`core/app.py`) -/

/-- Embeds the mission-tracking initialisation of `App.load_mission`
(app.py:242-248): for a non-empty parsed index list on a known vehicle,
`original` and `uploaded` both become the parsed list and `reached` is reset
to the empty list. -/
def load_mission_tracking (s : UAVState) (waypoint_indices : List Int) :
    UAVState :=
  if waypoint_indices ≠ [] then
    { s with original_waypoint_indices := some waypoint_indices,
             uploaded_waypoint_indices := some waypoint_indices,
             reached_waypoint_indices := some [] }
  else s

/-- Embeds the state update both resume operations perform just before
uploading (app.py:382-386 and 553-557): `uploaded_waypoint_indices` is
replaced by the trimmed list while `reached_waypoint_indices` is kept as-is. -/
def resume_update_uploaded (s : UAVState) (remaining : List Int) : UAVState :=
  { s with uploaded_waypoint_indices := some remaining }

/-- The registry invariant claimed by the spec:
`reachedWaypointIndices ⊆ uploadedWaypointIndices` (on the states where both
attributes exist). -/
def mission_invariant (s : UAVState) : Prop :=
  ∀ r ∈ s.reached_waypoint_indices, ∀ u ∈ s.uploaded_waypoint_indices,
    ∀ x ∈ r, x ∈ u

/-! ## Mission upload session (`core/mavlink_manager.py`)

An active upload is a dict `upload_state` created by `_mission_upload_thread`
(mavlink_manager.py:1062-1073) and mutated by
`_handle_mission_upload_message` (mavlink_manager.py:852-991), which runs on
the receive loop.  The thread blocks on a `threading.Event` that only the
`MISSION_ACK` branch sets; the handler's boolean result below records whether
the step set that completion event. -/

/-- The `'phase'` values the upload dict passes through. -/
inductive UploadPhase
  | pending
  | count_sent
  | waiting_ack
  | complete
  | error
deriving DecidableEq

/-- A waypoint dict as parsed by `_parse_mission_file`
(mavlink_manager.py:826-840). -/
structure Waypoint where
  seq : Int := 0
  current : Int := 0
  frame : Int := 3
  command : Int := 16
  param1 : ℚ := 0
  param2 : ℚ := 0
  param3 : ℚ := 0
  param4 : ℚ := 0
  x : ℚ := 0
  y : ℚ := 0
  z : ℚ := 0
  autocontinue : Int := 1
deriving DecidableEq

/-- The `upload_state` dict (mavlink_manager.py:1062-1073), minus the wall
clock timeout bookkeeping which only the waiting thread reads. -/
structure MissionUploadState where
  phase : UploadPhase
  waypoints : List Waypoint
  waypoints_sent : ℕ
  waypoints_total : ℕ
  requests_received : Finset ℕ
  ack_received : Bool
  success : Bool
  error : Option String
deriving DecidableEq

/-- The initial `upload_state` registered after the semaphore slot is
acquired (mavlink_manager.py:1062-1076). -/
def initUploadState (ws : List Waypoint) : MissionUploadState :=
  { phase := .count_sent,
    waypoints := ws,
    waypoints_sent := 0,
    waypoints_total := ws.length,
    requests_received := ∅,
    ack_received := false,
    success := false,
    error := none }

/-- The mission protocol messages forwarded to the upload handler
(mavlink_manager.py:324-327).  `MISSION_REQUEST` and `MISSION_REQUEST_INT`
differ only in the wire format of the reply. -/
inductive UploadMsg
  | request (seq : ℕ)
  | requestInt (seq : ℕ)
  | ack (code : ℕ)

/-- The MAVLink ack error strings of the `MISSION_ACK` branch
(mavlink_manager.py:956-977); code 0 is `MAV_MISSION_ACCEPTED`. -/
def upload_error_msgs (code : ℕ) : String :=
  match code with
  | 1 => "Generic error (MAV_MISSION_ERROR)"
  | 2 => "Unsupported coordinate frame"
  | 3 => "Unsupported mission command"
  | 4 => "No space left on device"
  | 5 => "Invalid mission"
  | 6 => "Invalid param1"
  | 7 => "Invalid param2"
  | 8 => "Invalid param3"
  | 9 => "Invalid param4"
  | 10 => "Invalid param5/X coordinate"
  | 11 => "Invalid param6/Y coordinate"
  | 12 => "Invalid param7/altitude"
  | 13 => "Invalid sequence"
  | 14 => "Mission denied"
  | 15 => "Not in a mission (mission may still be loaded)"
  | 16 => "No missions available"
  | 17 => "Mission out of bounds"
  | 18 => "Temporary failure (retry later)"
  | n => "Unknown MAVLink error code " ++ toString n

/-- The shared update for the `MISSION_REQUEST` / `MISSION_REQUEST_INT`
branch (mavlink_manager.py:869-943): an in-range fresh request is recorded
and answered, a duplicate is ignored, the transition to `waiting_ack` fires
once every waypoint has been requested, and an out-of-range request marks the
session errored.  None of these paths sets the completion event. -/
def handle_request (st : MissionUploadState) (seq : ℕ) :
    MissionUploadState × Bool :=
  if seq < st.waypoints.length then
    if seq ∈ st.requests_received then (st, false)
    else
      let rr := insert seq st.requests_received
      let st := { st with requests_received := rr,
                          waypoints_sent := st.waypoints_sent + 1 }
      if st.waypoints.length ≤ rr.card then
        ({ st with phase := .waiting_ack }, false)
      else (st, false)
  else
    ({ st with error := some ("Invalid waypoint request " ++ toString seq),
               phase := .error },
     false)

/-- Embeds `MAVLinkManager._handle_mission_upload_message`
(mavlink_manager.py:852-991).  The boolean result is whether the step set the
thread's completion event: only the `MISSION_ACK` branch does
(mavlink_manager.py:988-990). -/
def handle_mission_upload_message (st : MissionUploadState) (msg : UploadMsg) :
    MissionUploadState × Bool :=
  match msg with
  | .request seq => handle_request st seq
  | .requestInt seq => handle_request st seq
  | .ack code =>
    if code = 0 then
      ({ st with ack_received := true, phase := .complete, success := true },
       true)
    else
      ({ st with error := some (upload_error_msgs code),
                 phase := .error,
                 success := false },
       true)

/-- Fold the handler over an inbound message trace, remembering whether any
step set the completion event. -/
def processUploadMsgs (start : MissionUploadState × Bool)
    (msgs : List UploadMsg) : MissionUploadState × Bool :=
  msgs.foldl
    (fun acc m =>
      let r := handle_mission_upload_message acc.1 m
      (r.1, acc.2 || r.2))
    start

/-- The result reporting of `_mission_upload_thread`
(mavlink_manager.py:1098-1125): the thread waits on the completion event for
`mission_upload_timeout` seconds; if the event was never set it reports a
timeout, otherwise it reports according to the session's `success` flag. -/
def thread_report (eventSet : Bool) (st : MissionUploadState)
    (timeout_s : ℕ) : Bool × String :=
  if !eventSet then
    (false, "Upload timeout after " ++ toString timeout_s ++ "s")
  else if st.success then
    (true, "Mission uploaded successfully")
  else
    (false, "Upload failed: " ++ st.error.getD "Unknown error")

/-! ## Upload reservation registry (`core/mavlink_manager.py`)

`active_mission_uploads` is keyed by `uav_id`; `_upload_mission_to_uav`
reserves the key before the upload thread starts, and only the thread's
post-semaphore paths delete it. -/

/-- The manager state the upload admission logic reads: the key set of
`active_mission_uploads`. -/
structure UploadRegistry where
  active_mission_uploads : Finset String
deriving DecidableEq

/-- Embeds `MAVLinkManager._upload_mission_to_uav`
(mavlink_manager.py:992-1030): rejects an empty waypoint list, a missing
Telem1 path, and a vehicle already reserved; otherwise reserves the vehicle
and starts the upload thread, returning `True`. -/
def upload_mission_to_uav (reg : UploadRegistry) (uav : String)
    (waypoints : List Waypoint) (telem1_ok : Bool) : Bool × UploadRegistry :=
  if waypoints.isEmpty then (false, reg)
  else if !telem1_ok then (false, reg)
  else if uav ∈ reg.active_mission_uploads then (false, reg)
  else (true, { active_mission_uploads := insert uav reg.active_mission_uploads })

/-- Embeds the semaphore-timeout path of `_mission_upload_thread`
(mavlink_manager.py:1042-1049): when `upload_semaphore.acquire(blocking=True,
timeout=120)` returns `False`, the thread emits a failure report and returns
*before* entering the `try` block, so the reservation placed in
`active_mission_uploads` is not removed.  Result: registry after the path and
the `(success, message)` completion report it emits. -/
def mission_upload_thread_slot_timeout (reg : UploadRegistry) (_uav : String) :
    UploadRegistry × (Bool × String) :=
  (reg, (false, "Timeout waiting for upload slot"))

/-- Embeds the admission portion of `MAVLinkManager.load_mission`
(mavlink_manager.py:721-775): unknown vehicle, missing file and an empty
parse each return `False`; a vehicle already in `active_mission_uploads`
takes the "upload already in progress" branch, whose
`self.mission_upload_completion.emit(...)` raises `AttributeError` (the
signal is named `mission_upload_completed`), which the enclosing `except`
turns into `return False`; otherwise the mission is cleared and
`_upload_mission_to_uav` runs. -/
def load_mission_mgr (reg : UploadRegistry) (uav : String) (uav_known : Bool)
    (file_exists : Bool) (parsed_waypoints : List Waypoint)
    (telem1_ok : Bool) : Bool × UploadRegistry :=
  if !uav_known then (false, reg)
  else if !file_exists then (false, reg)
  else if parsed_waypoints.isEmpty then (false, reg)
  else if uav ∈ reg.active_mission_uploads then (false, reg)
  else upload_mission_to_uav reg uav parsed_waypoints telem1_ok

/-! ## Mission resume planner (`core/app.py`)

`App.resume_mission_from_waypoint` (app.py:436-605) works on the raw
tab-separated waypoint lines: a record is its integer index (`parts[0]`)
together with the remaining fields, which the re-indexing step copies
verbatim while overwriting `parts[0]`. -/

/-- A parsed waypoint line of the mission file: the stored index and the
remaining tab-separated fields
(`current frame command param1..param4 lat lon alt autocontinue`). -/
structure MissionRecord where
  idx : Int
  rest : List String
deriving DecidableEq, Inhabited

/-- The trimmed index list built in app.py:512-524: HOME (index `0`) first
when it occurs in the original list, then every original index from the first
occurrence of `resume_from` onward, skipping index `0`. -/
def resume_wp_indices (original : List Int) (resume_from : Int) : List Int :=
  (if 0 ∈ original then [0] else []) ++
    (original.drop (original.indexOf resume_from)).filter (fun w => w ≠ 0)

/-- Embeds the validation and trimming portion of
`App.resume_mission_from_waypoint` (app.py:450-528): fails (`return False`,
embedded as `none`) when the vehicle has no stored indices, when
`resume_from` is absent from them, or when the trimmed list would hold only
the HOME waypoint. -/
def resume_plan (original : List Int) (resume_from : Int) :
    Option (List Int) :=
  if original = [] then none
  else if resume_from ∉ original then none
  else
    let remaining := resume_wp_indices original resume_from
    if remaining.length ≤ 1 then none else some remaining

/-- Embeds the re-indexing loop of app.py:533-551: each surviving index is
looked up in the waypoint dict (an index missing from the dict is skipped
with a warning) and its record's stored index is overwritten with its new
position; all other fields are copied unchanged. -/
def reindex_waypoints (dict : Int → Option MissionRecord)
    (remaining : List Int) : List MissionRecord :=
  remaining.enum.filterMap fun p =>
    (dict p.2).map fun r => { r with idx := Int.ofNat p.1 }

/-! ## Automatic resume (`core/app.py`, `core/uav_state.py`)

`App.resume_mission` (app.py:268-295) resumes from the last reached
waypoint.  After the `uav_id in self.uav_states` check it evaluates
`uav_state.get_last_completed_waypoint()` (app.py:283) — but class `UAVState`
(core/uav_state.py) defines no attribute or method of that name, so in Python
the attribute lookup raises `AttributeError` before any of the
resume-validation checks run.  There is no `try/except` around the call. -/

/-- The attribute lookup `uav_state.get_last_completed_waypoint` against
class `UAVState` as defined in core/uav_state.py: the class defines no such
attribute, so the lookup raises.  No method body exists in the source to
embed. -/
def get_last_completed_waypoint (_s : UAVState) : Except String Int :=
  .error "AttributeError: UAVState object has no attribute get_last_completed_waypoint"

/-- Embeds `App.resume_mission` (app.py:268-295) up to its first
state-dependent step: unknown vehicle returns `False`; for a known vehicle
the very next statement calls the undefined
`uav_state.get_last_completed_waypoint()`, so the raised `AttributeError`
propagates out of the slot. -/
def resume_mission (uav_known : Bool) (s : UAVState) : Except String Bool := do
  if !uav_known then return false
  let last_completed ← get_last_completed_waypoint s
  -- app.py:286-288 (intended dead code: the line above always raises)
  if last_completed < 0 then return false
  return true

/-! ## Safety monitor (`core/safety_monitor.py`) -/

/-- The `AlertType` enum (safety_monitor.py:16-25). -/
inductive AlertType
  | low_battery
  | critical_battery
  | comm_loss
  | gps_loss
  | altitude_violation
  | excessive_speed
  | attitude_extreme
  | mission_timeout
  | system_error
deriving DecidableEq

/-- The `SafetyLevel` enum (safety_monitor.py:10-14). -/
inductive SafetyLevel
  | normal
  | warning
  | critical
  | emergency
deriving DecidableEq

/-- An entry of `alert_history[uav_id]` (safety_monitor.py:230-235). -/
structure SafetyAlertRec where
  timestamp : ℚ
  alert_type : AlertType
  message : String
  safety_level : SafetyLevel
deriving DecidableEq

/-- The per-vehicle monitor state the battery check reads and writes:
`last_alert_time[uav_id]` (a dict defaulting to `0` per alert type, per
`.get(alert_type, 0)`), `alert_history[uav_id]`, and the cooldown constant
(30 s, safety_monitor.py:64). -/
structure SafetyState where
  last_alert_time : AlertType → ℚ
  alert_history : List SafetyAlertRec
  alert_cooldown : ℚ

/-- The monitor state right after `_monitor_all_uavs` initialises a vehicle
(safety_monitor.py:106-109): empty history, no recorded alert times. -/
def SafetyState.init : SafetyState :=
  { last_alert_time := fun _ => 0, alert_history := [], alert_cooldown := 30 }

/-- Embeds `SafetyMonitor._should_send_alert` (safety_monitor.py:223-226):
`(current_time - last_time) > self.alert_cooldown`. -/
def should_send_alert (st : SafetyState) (k : AlertType) (t : ℚ) : Bool :=
  decide (st.alert_cooldown < t - st.last_alert_time k)

/-- Embeds `SafetyMonitor._send_alert` (safety_monitor.py:228-250): appends
the alert to the history and stamps `last_alert_time[alert_type]`. -/
def send_alert (st : SafetyState) (k : AlertType) (message : String)
    (lvl : SafetyLevel) (t : ℚ) : SafetyState :=
  { st with
    alert_history := st.alert_history ++ [⟨t, k, message, lvl⟩],
    last_alert_time := fun k2 => if k2 = k then t else st.last_alert_time k2 }

/-- The three battery thresholds (safety_monitor.py:46-48), with the config
defaults 30 / 20 / 10 percent. -/
structure BatteryThresholds where
  battery_warning : Int := 30
  battery_critical : Int := 20
  battery_emergency : Int := 10

/-- Embeds `SafetyMonitor._monitor_battery` (safety_monitor.py:123-142):
an `if/elif` ladder from emergency to warning, each branch guarded by the
per-kind cooldown check.  The emergency and critical branches both use alert
kind `CRITICAL_BATTERY`; the warning branch uses `LOW_BATTERY`. -/
def monitor_battery (cfg : BatteryThresholds) (st : SafetyState)
    (battery_percent : Int) (t : ℚ) : SafetyState :=
  if battery_percent ≤ cfg.battery_emergency then
    (if should_send_alert st .critical_battery t then
      send_alert st .critical_battery
        ("CRITICAL battery: " ++ toString battery_percent ++ "%")
        .emergency t
    else st)
  else if battery_percent ≤ cfg.battery_critical then
    (if should_send_alert st .critical_battery t then
      send_alert st .critical_battery
        ("Critical battery: " ++ toString battery_percent ++ "%")
        .critical t
    else st)
  else if battery_percent ≤ cfg.battery_warning then
    (if should_send_alert st .low_battery t then
      send_alert st .low_battery
        ("Low battery: " ++ toString battery_percent ++ "%")
        .warning t
    else st)
  else st

/-! ## Helper lemmas -/

lemma start_mission_timer_armed (s : UAVState) (t : ℚ) :
    (start_mission_timer s t).armed = s.armed := rfl

lemma stop_mission_timer_armed (s : UAVState) (t : ℚ) :
    (stop_mission_timer s t).armed = s.armed := by
  unfold stop_mission_timer
  dsimp only
  split <;> rfl

lemma start_mission_timer_pending_arm (s : UAVState) (t : ℚ) :
    (start_mission_timer s t).pending_arm_command = s.pending_arm_command := rfl

lemma stop_mission_timer_pending_arm (s : UAVState) (t : ℚ) :
    (stop_mission_timer s t).pending_arm_command = s.pending_arm_command := by
  unfold stop_mission_timer
  dsimp only
  split <;> rfl

lemma heartbeat_timer_logic_armed (pm : String) (pa : Bool) (nm : String)
    (na : Bool) (s : UAVState) (t : ℚ) :
    (heartbeat_timer_logic pm pa nm na s t).armed = s.armed := by
  unfold heartbeat_timer_logic stop_mission_timer start_mission_timer
  dsimp only
  repeat' split
  all_goals rfl

lemma heartbeat_timer_logic_pending_arm (pm : String) (pa : Bool) (nm : String)
    (na : Bool) (s : UAVState) (t : ℚ) :
    (heartbeat_timer_logic pm pa nm na s t).pending_arm_command
      = s.pending_arm_command := by
  unfold heartbeat_timer_logic stop_mission_timer start_mission_timer
  dsimp only
  repeat' split
  all_goals rfl

lemma update_home_position_if_needed_armed (s : UAVState) :
    (update_home_position_if_needed s).armed = s.armed := by
  unfold update_home_position_if_needed set_home_position
  split <;> rfl

lemma update_home_position_if_needed_pending_arm (s : UAVState) :
    (update_home_position_if_needed s).pending_arm_command
      = s.pending_arm_command := by
  unfold update_home_position_if_needed set_home_position
  split <;> rfl

lemma update_remaining_battery_time_armed (s : UAVState) :
    (update_remaining_battery_time s).armed = s.armed := by
  unfold update_remaining_battery_time
  split <;> rfl

lemma update_remaining_battery_time_pending_arm (s : UAVState) :
    (update_remaining_battery_time s).pending_arm_command
      = s.pending_arm_command := by
  unfold update_remaining_battery_time
  split <;> rfl

lemma update_telemetry_armed (s : UAVState) (t : ℚ) (u : TelemetryUpdate) :
    (update_telemetry s t u).armed = u.armed.getD s.armed := by
  unfold update_telemetry
  rw [update_home_position_if_needed_armed]
  split <;> simp [update_remaining_battery_time_armed]

lemma update_telemetry_pending_arm (s : UAVState) (t : ℚ) (u : TelemetryUpdate) :
    (update_telemetry s t u).pending_arm_command = s.pending_arm_command := by
  unfold update_telemetry
  rw [update_home_position_if_needed_pending_arm]
  split <;> simp [update_remaining_battery_time_pending_arm]

/-! ## Claim theorems -/

/-- Claim C2: for a known vehicle, when Telem1 is unavailable or the vehicle
is not connected via Telem1 while Telem2 is open and the vehicle's
Telem2-health flag is true, `send_command` routes to Telem2, returns true iff
all 3 broadcast transmissions succeed at the transport level, and performs
exactly 3 transmissions in the all-success case; when neither channel
qualifies it returns false with no channel used. -/
theorem send_command_channel_fallback (m : ArbiterState) (ct : CommandType)
    (o : ℕ → Bool) (telem1_result : Bool) (hk : m.uav_known = true) :
    ((is_telem1_available m && is_connected m) = false →
      m.telem2_connection = true → m.uav_telem2_status = true →
      (ct = .set_mode ∨ ct = .command_long) →
      (send_command m ct o telem1_result).2.1 = .telem2 ∧
      ((send_command m ct o telem1_result).1 = true ↔
        (o 0 && o 1 && o 2) = true) ∧
      ((o 0 && o 1 && o 2) = true →
        (send_command m ct o telem1_result).2.2 = 3)) ∧
    ((is_telem1_available m && is_connected m) = false →
      should_use_telem2 m = false →
      send_command m ct o telem1_result = (false, .noChannel, 0)) := by
  constructor
  · intro h1 h2 h3 hct
    have hs : should_use_telem2 m = true := by
      simp [should_use_telem2, h1, h2, get_telem2_status, hk, h3]
    rcases hct with hct | hct <;>
      simp [send_command, hk, h1, hs, send_command_telem2, h2, hct,
        telem2_send_count] <;>
      intro ha hb _ <;> simp [ha, hb]
  · intro h1 h2
    simp [send_command, hk, h1, h2]

/-- Claim C2 witness: with Telem1 down, Telem2 open and healthy, and all
three wire writes succeeding, the command is broadcast 3 times over Telem2
and reported successful; with Telem2 unhealthy, no channel is available. -/
theorem send_command_channel_fallback_witness :
    (send_command
        ⟨false, true, true, false, true⟩ .set_mode (fun _ => true) true).2.1
      = Channel.telem2 ∧
    (send_command
        ⟨false, true, true, false, true⟩ .set_mode (fun _ => true) true).1
      = true ∧
    (send_command
        ⟨false, true, true, false, true⟩ .set_mode (fun _ => true) true).2.2
      = 3 ∧
    send_command ⟨false, true, true, false, false⟩ .set_mode (fun _ => true) true
      = (false, .noChannel, 0) := by
  have h1 := send_command_channel_fallback
    ⟨false, true, true, false, true⟩ .set_mode (fun _ => true) true rfl
  have h2 := send_command_channel_fallback
    ⟨false, true, true, false, false⟩ .set_mode (fun _ => true) true rfl
  refine ⟨(h1.1 rfl rfl rfl (Or.inl rfl)).1,
    (h1.1 rfl rfl rfl (Or.inl rfl)).2.1.mpr rfl,
    (h1.1 rfl rfl rfl (Or.inl rfl)).2.2 rfl,
    h2.2 rfl (by decide)⟩

/-- Claim C6 (code bug): `App.resume_mission` on a known vehicle calls
`uav_state.get_last_completed_waypoint()`, a method class `UAVState` never
defines, so every call raises `AttributeError` instead of reaching the
return-false validation paths the claim (and the spec) describe. -/
theorem resume_mission_always_raises (s : UAVState) :
    resume_mission true s =
      .error "AttributeError: UAVState object has no attribute get_last_completed_waypoint" :=
  rfl

/-- Claim C10 counterexample: on a freshly constructed `UAVState` (no prior
`load_mission`), processing `MISSION_CURRENT` does not raise: the statement
`state.current_waypoint = msg.seq` is an attribute assignment, which creates
the attribute and succeeds. -/
theorem mission_current_assignment_does_not_raise :
    process_mavlink_message (UAVState.init "UAV_1") (.missionCurrent 5) 0
      = ({ UAVState.init "UAV_1" with current_waypoint := some 5 }, none) :=
  rfl

/-- Claim C10 (amended): on a freshly constructed `UAVState`, processing
`MISSION_ITEM_REACHED` reads the missing `uploaded_waypoint_indices`
attribute and raises `AttributeError` before any mutation, and the receive
loop's `except` clause leaves the registry entry unchanged. -/
theorem fresh_state_item_reached_raises (uav : String) (seq : ℕ) (t : ℚ) :
    process_mavlink_message (UAVState.init uav) (.missionItemReached seq) t
      = (UAVState.init uav, some "AttributeError: uploaded_waypoint_indices") ∧
    loop_step (UAVState.init uav) (.missionItemReached seq) t = UAVState.init uav :=
  ⟨rfl, rfl⟩

/-- Claim C4 counterexample: with a 1-waypoint session, the out-of-range
request `seq = 1` marks the session errored but does not set the thread's
completion event (so the session does not terminate at that point: the
waiting thread keeps running), and with no further event the thread reports
a timeout, not the invalid-request reason. -/
theorem invalid_request_does_not_signal_thread :
    (handle_mission_upload_message (initUploadState [{}]) (.request 1)).1.phase
      = .error ∧
    (handle_mission_upload_message (initUploadState [{}]) (.request 1)).2
      = false ∧
    thread_report
        (handle_mission_upload_message (initUploadState [{}]) (.request 1)).2
        (handle_mission_upload_message (initUploadState [{}]) (.request 1)).1 30
      = (false, "Upload timeout after 30s") :=
  ⟨rfl, rfl, rfl⟩

/-- Claim C4 (amended): an out-of-range `MISSION_REQUEST` /
`MISSION_REQUEST_INT` immediately marks the session phase `error` with the
invalid-waypoint-request reason, but does not set the completion event, so
the upload thread is not woken: absent a later ack event it runs until the
upload timeout and reports the timeout message. -/
theorem invalid_request_marks_error_without_terminating
    (st : MissionUploadState) (seq : ℕ) (timeout_s : ℕ)
    (hseq : st.waypoints.length ≤ seq) :
    (handle_mission_upload_message st (.request seq)).1.phase = .error ∧
    (handle_mission_upload_message st (.request seq)).1.error
      = some ("Invalid waypoint request " ++ toString seq) ∧
    (handle_mission_upload_message st (.request seq)).2 = false ∧
    (handle_mission_upload_message st (.requestInt seq)).1.phase = .error ∧
    (handle_mission_upload_message st (.requestInt seq)).2 = false ∧
    thread_report
        (handle_mission_upload_message st (.request seq)).2
        (handle_mission_upload_message st (.request seq)).1 timeout_s
      = (false, "Upload timeout after " ++ toString timeout_s ++ "s") := by
  have h : ¬ (seq < st.waypoints.length) := not_lt.mpr hseq
  simp [handle_mission_upload_message, handle_request, h, thread_report]

/-- Claim C4 witness: the amended behaviour at a concrete 2-waypoint session
and the out-of-range request `seq = 5`. -/
theorem invalid_request_marks_error_without_terminating_witness :
    (handle_mission_upload_message (initUploadState [{}, {}]) (.request 5)).1.phase
      = .error ∧
    (handle_mission_upload_message (initUploadState [{}, {}]) (.request 5)).2
      = false :=
  ⟨(invalid_request_marks_error_without_terminating (initUploadState [{}, {}]) 5 30
      (by decide)).1,
   (invalid_request_marks_error_without_terminating (initUploadState [{}, {}]) 5 30
      (by decide)).2.2.1⟩

/-- Claim C9: when the upload thread times out waiting for the concurrency
semaphore, it reports failure and returns without removing the reservation
placed in `active_mission_uploads`, so every later `load_mission` for that
vehicle hits the already-in-progress branch, returns false, and leaves the
stale reservation in place. -/
theorem semaphore_timeout_leaks_reservation (reg : UploadRegistry)
    (uav : String) (ws : List Waypoint) (hws : ws.isEmpty = false)
    (hfree : uav ∉ reg.active_mission_uploads) :
    (upload_mission_to_uav reg uav ws true).1 = true ∧
    (mission_upload_thread_slot_timeout
        (upload_mission_to_uav reg uav ws true).2 uav).2
      = (false, "Timeout waiting for upload slot") ∧
    uav ∈ (mission_upload_thread_slot_timeout
        (upload_mission_to_uav reg uav ws true).2 uav).1.active_mission_uploads ∧
    ∀ (fe t1b : Bool) (ws2 : List Waypoint),
      load_mission_mgr
          (mission_upload_thread_slot_timeout
            (upload_mission_to_uav reg uav ws true).2 uav).1
          uav true fe ws2 t1b
        = (false,
           (mission_upload_thread_slot_timeout
             (upload_mission_to_uav reg uav ws true).2 uav).1) := by
  have hres : upload_mission_to_uav reg uav ws true
      = (true, { active_mission_uploads := insert uav reg.active_mission_uploads }) := by
    simp [upload_mission_to_uav, hws, hfree]
  refine ⟨by simp [hres], rfl, ?_, ?_⟩
  · simp [hres, mission_upload_thread_slot_timeout]
  · intro fe t1b ws2
    have hmem : uav ∈ (mission_upload_thread_slot_timeout
        (upload_mission_to_uav reg uav ws true).2 uav).1.active_mission_uploads := by
      simp [hres, mission_upload_thread_slot_timeout]
    cases fe
    · simp [load_mission_mgr]
    · simp [load_mission_mgr, hmem]

/-- Claim C9 witness: a concrete vehicle on an empty registry, a 1-waypoint
mission, and a concrete later `load_mission` call. -/
theorem semaphore_timeout_leaks_reservation_witness :
    (upload_mission_to_uav ⟨∅⟩ "UAV_1" [{}] true).1 = true ∧
    "UAV_1" ∈ (mission_upload_thread_slot_timeout
        (upload_mission_to_uav ⟨∅⟩ "UAV_1" [{}] true).2
        "UAV_1").1.active_mission_uploads ∧
    (load_mission_mgr
        (mission_upload_thread_slot_timeout
          (upload_mission_to_uav ⟨∅⟩ "UAV_1" [{}] true).2 "UAV_1").1
        "UAV_1" true true [{}] true).1 = false := by
  have h := semaphore_timeout_leaks_reservation ⟨∅⟩ "UAV_1" [{}] rfl (by simp)
  exact ⟨h.1, h.2.2.1, by rw [h.2.2.2 true true [{}]]⟩

/-- Claim C7: for a known vehicle, `arm_uav` immediately sets `armed = true`
and clears any pending-disarm marker; a heartbeat reporting `armed = false`
processed less than 3 s after the request leaves `armed = true`; a heartbeat
processed 3 s or more after the request clears the pending marker and its
armed value is accepted as-is. -/
theorem optimistic_arm_reconciliation (s : UAVState) (t t1 t2 : ℚ)
    (m1 m2 : String) (b : Bool) (hct : s.command_timeout = 3) :
    ((arm_uav true s t).1 = true ∧
     (arm_uav true s t).2.armed = true ∧
     (arm_uav true s t).2.pending_disarm_command = none) ∧
    (t1 - t < 3 →
      (process_mavlink_message (arm_uav true s t).2
          (.heartbeat m1 false) t1).1.armed = true) ∧
    (3 ≤ t2 - t →
      (process_mavlink_message (arm_uav true s t).2
          (.heartbeat m2 b) t2).1.armed = b ∧
      (process_mavlink_message (arm_uav true s t).2
          (.heartbeat m2 b) t2).1.pending_arm_command = none) := by
  refine ⟨⟨rfl, rfl, rfl⟩, ?_, ?_⟩
  · intro hwin
    have hact : arm_pending_active (set_pending_arm_command s t) t1 = true := by
      show decide (t1 - t < s.command_timeout) = true
      rw [hct]
      exact decide_eq_true hwin
    show (process_mavlink_message (set_pending_arm_command s t)
        (.heartbeat m1 false) t1).1.armed = true
    unfold process_mavlink_message
    dsimp only
    rw [heartbeat_timer_logic_armed]
    unfold update_telemetry_protected
    dsimp only
    rw [update_telemetry_armed]
    simp [protected_kwargs, hact]
  · intro hge
    have hact : arm_pending_active (set_pending_arm_command s t) t2 = false := by
      show decide (t2 - t < s.command_timeout) = false
      rw [hct]
      exact decide_eq_false (not_lt.mpr hge)
    have hdis : disarm_pending_active (set_pending_arm_command s t) t2 = false :=
      rfl
    have hexp : arm_pending_expired (set_pending_arm_command s t) t2 = true := by
      show decide (s.command_timeout ≤ t2 - t) = true
      rw [hct]
      exact decide_eq_true hge
    constructor
    · show (process_mavlink_message (set_pending_arm_command s t)
          (.heartbeat m2 b) t2).1.armed = b
      unfold process_mavlink_message
      dsimp only
      rw [heartbeat_timer_logic_armed]
      unfold update_telemetry_protected
      dsimp only
      rw [update_telemetry_armed]
      simp [protected_kwargs, hact, hdis]
    · show (process_mavlink_message (set_pending_arm_command s t)
          (.heartbeat m2 b) t2).1.pending_arm_command = none
      unfold process_mavlink_message
      dsimp only
      rw [heartbeat_timer_logic_pending_arm]
      unfold update_telemetry_protected
      dsimp only
      rw [update_telemetry_pending_arm]
      simp [hexp]

/-- Claim C7 witness: arming a fresh vehicle at time 0, a heartbeat with
`armed=false` at 1 s keeps `armed = true`, and one at 4 s is accepted as-is
with the pending marker cleared. -/
theorem optimistic_arm_reconciliation_witness :
    (arm_uav true (UAVState.init "UAV_1") 0).2.armed = true ∧
    (arm_uav true (UAVState.init "UAV_1") 0).2.pending_disarm_command = none ∧
    (process_mavlink_message (arm_uav true (UAVState.init "UAV_1") 0).2
        (.heartbeat "AUTO" false) 1).1.armed = true ∧
    (process_mavlink_message (arm_uav true (UAVState.init "UAV_1") 0).2
        (.heartbeat "AUTO" false) 4).1.armed = false ∧
    (process_mavlink_message (arm_uav true (UAVState.init "UAV_1") 0).2
        (.heartbeat "AUTO" false) 4).1.pending_arm_command = none := by
  have h := optimistic_arm_reconciliation (UAVState.init "UAV_1") 0 1 4
    "AUTO" "AUTO" false rfl
  exact ⟨h.1.2.1, h.1.2.2, h.2.1 (by norm_num),
    (h.2.2 (by norm_num)).1, (h.2.2 (by norm_num)).2⟩

/-- Claim C1 counterexample: load mission `[0,1,2,3,4,5]`, reach uploaded
sequence 1 (waypoint 1), then resume from waypoint 3.  The resume replaces
`uploaded_waypoint_indices` with `[0,3,4,5]` while keeping
`reached_waypoint_indices = [1]`, so `reached ⊆ uploaded` no longer holds:
the resume operation does not preserve the subset relation. -/
theorem resume_breaks_subset_counterexample :
    ¬ mission_invariant
      (resume_update_uploaded
        (loop_step
          (load_mission_tracking (UAVState.init "UAV_1") [0, 1, 2, 3, 4, 5])
          (.missionItemReached 1) 0)
        (resume_wp_indices [0, 1, 2, 3, 4, 5] 3)) := by
  intro h
  have hr : (resume_update_uploaded
      (loop_step
        (load_mission_tracking (UAVState.init "UAV_1") [0, 1, 2, 3, 4, 5])
        (.missionItemReached 1) 0)
      (resume_wp_indices [0, 1, 2, 3, 4, 5] 3)).reached_waypoint_indices
      = some ((([] : List Int) ++ [1]).mergeSort (fun a b => a ≤ b)) := rfl
  have hu : (resume_update_uploaded
      (loop_step
        (load_mission_tracking (UAVState.init "UAV_1") [0, 1, 2, 3, 4, 5])
        (.missionItemReached 1) 0)
      (resume_wp_indices [0, 1, 2, 3, 4, 5] 3)).uploaded_waypoint_indices
      = some [0, 3, 4, 5] := rfl
  have hmem : (1 : Int) ∈ (([] : List Int) ++ [1]).mergeSort (fun a b => a ≤ b) := by
    rw [List.mem_mergeSort]
    simp
  have h2 := h _ (Option.mem_def.mpr hr) _ (Option.mem_def.mpr hu) 1 hmem
  exact absurd h2 (by decide)

/-- Claim C1 (amended): `load_mission` initialisation establishes
`reached ⊆ uploaded` (and preserves it when the parsed index list is empty
and the state is left untouched), and the `MISSION_ITEM_REACHED` handler
preserves it; the resume operations, which replace
`uploaded_waypoint_indices` by the trimmed list while keeping
`reached_waypoint_indices`, preserve it exactly when every already-reached
index survives the trimming. -/
theorem mission_subset_invariant_ops (s : UAVState) (inds remaining : List Int)
    (seq : ℕ) (t : ℚ) :
    (mission_invariant s → mission_invariant (load_mission_tracking s inds)) ∧
    (inds ≠ [] → mission_invariant (load_mission_tracking s inds)) ∧
    (mission_invariant s →
      mission_invariant (loop_step s (.missionItemReached seq) t)) ∧
    ((∀ r ∈ s.reached_waypoint_indices, ∀ x ∈ r, x ∈ remaining) →
      mission_invariant (resume_update_uploaded s remaining)) := by
  refine ⟨?_, ?_, ?_, ?_⟩
  · intro hinv
    by_cases hinds : inds = []
    · simpa [load_mission_tracking, hinds] using hinv
    · simp [load_mission_tracking, hinds, mission_invariant, Option.mem_def]
  · intro hinds
    simp [load_mission_tracking, hinds, mission_invariant, Option.mem_def]
  · intro hinv r hr u hu2 x hx
    unfold loop_step process_mavlink_message at hr hu2
    cases hu : s.uploaded_waypoint_indices with
    | none =>
      rw [hu] at hr hu2
      dsimp only at hr hu2
      exact hinv r hr u hu2 x hx
    | some uploaded =>
      rw [hu] at hr hu2
      dsimp only at hr hu2
      by_cases hseq : seq < uploaded.length
      · rw [dif_pos hseq] at hr hu2
        cases hr0 : s.reached_waypoint_indices with
        | none =>
          rw [hr0] at hr hu2
          dsimp only at hr hu2
          exact hinv r hr u hu2 x hx
        | some reached =>
          rw [hr0] at hr hu2
          dsimp only at hr hu2
          cases ho : s.original_waypoint_indices with
          | none =>
            rw [ho] at hr hu2
            dsimp only at hr hu2
            rw [Option.mem_def] at hr hu2
            obtain rfl : uploaded = u := Option.some.inj hu2
            injection hr with hr3
            subst hr3
            by_cases hcase : uploaded.get ⟨seq, hseq⟩ ∈ reached
            · rw [if_pos hcase] at hx
              exact hinv reached (Option.mem_def.mpr hr0) uploaded
                (Option.mem_def.mpr hu) x hx
            · rw [if_neg hcase, List.mem_mergeSort, List.mem_append] at hx
              rcases hx with hx | hx
              · exact hinv reached (Option.mem_def.mpr hr0) uploaded
                  (Option.mem_def.mpr hu) x hx
              · rw [List.mem_singleton] at hx
                subst hx
                exact List.get_mem uploaded seq hseq
          | some o =>
            rw [ho] at hr hu2
            dsimp only at hr hu2
            rw [Option.mem_def] at hr hu2
            obtain rfl : uploaded = u := Option.some.inj hu2
            injection hr with hr3
            subst hr3
            by_cases hcase : uploaded.get ⟨seq, hseq⟩ ∈ reached
            · rw [if_pos hcase] at hx
              exact hinv reached (Option.mem_def.mpr hr0) uploaded
                (Option.mem_def.mpr hu) x hx
            · rw [if_neg hcase, List.mem_mergeSort, List.mem_append] at hx
              rcases hx with hx | hx
              · exact hinv reached (Option.mem_def.mpr hr0) uploaded
                  (Option.mem_def.mpr hu) x hx
              · rw [List.mem_singleton] at hx
                subst hx
                exact List.get_mem uploaded seq hseq
      · rw [dif_neg hseq] at hr hu2
        dsimp only at hr hu2
        exact hinv r hr u hu2 x hx
  · intro hsub r hr u hu2 x hx
    have huu : u = remaining := by
      have := Option.mem_def.mp hu2
      exact Option.some_inj.mp this.symm
    subst huu
    exact hsub r hr x hx

/-- Claim C1 witness: the preserved cases at concrete inputs — loading
mission `[0,1,2]` establishes the invariant, reaching sequence 1 afterwards
preserves it, and a resume whose trimmed list still contains every reached
index preserves it. -/
theorem mission_subset_invariant_ops_witness :
    mission_invariant (load_mission_tracking (UAVState.init "UAV_1") [0, 1, 2]) ∧
    mission_invariant
      (loop_step (load_mission_tracking (UAVState.init "UAV_1") [0, 1, 2])
        (.missionItemReached 1) 0) ∧
    mission_invariant
      (resume_update_uploaded (UAVState.init "UAV_1") [0, 1, 2]) := by
  have h1 := mission_subset_invariant_ops (UAVState.init "UAV_1") [0, 1, 2]
    [0, 1, 2] 1 0
  have h2 := mission_subset_invariant_ops
    (load_mission_tracking (UAVState.init "UAV_1") [0, 1, 2]) [0, 1, 2]
    [0, 1, 2] 1 0
  refine ⟨h1.2.1 (by decide), h2.2.2.1 (h1.2.1 (by decide)), ?_⟩
  exact h1.2.2.2 (by simp [UAVState.init, Option.mem_def])

lemma battery_emergency_default : ({} : BatteryThresholds).battery_emergency = 10 :=
  rfl

lemma battery_critical_default : ({} : BatteryThresholds).battery_critical = 20 :=
  rfl

lemma battery_warning_default : ({} : BatteryThresholds).battery_warning = 30 :=
  rfl

/-- Claim C8 counterexample: two battery readings below the warning threshold
(25 % then 15 %) evaluated 10 s apart — well inside the 30 s cooldown
window — produce two alerts, not one: the readings fall in different severity
bands, so the second is a `critical_battery` alert whose kind carries its own
independent cooldown. -/
theorem cross_band_low_battery_two_alerts :
    ((monitor_battery {} (monitor_battery {} SafetyState.init 25 100) 15 110).alert_history.map
        SafetyAlertRec.alert_type) = [.low_battery, .critical_battery] := by
  have h1 : monitor_battery {} SafetyState.init 25 100
      = send_alert SafetyState.init .low_battery ("Low battery: " ++ toString (25 : Int) ++ "%") .warning 100 := by
    unfold monitor_battery
    rw [battery_emergency_default, battery_critical_default,
      battery_warning_default]
    rw [if_neg (by omega), if_neg (by omega), if_pos (by omega)]
    have hs : should_send_alert SafetyState.init .low_battery 100 = true := by
      unfold should_send_alert
      simp [SafetyState.init]
      norm_num
    simp [hs]
  rw [h1]
  have h2 : monitor_battery {}
        (send_alert SafetyState.init .low_battery ("Low battery: " ++ toString (25 : Int) ++ "%") .warning 100)
        15 110
      = send_alert
          (send_alert SafetyState.init .low_battery ("Low battery: " ++ toString (25 : Int) ++ "%") .warning 100)
          .critical_battery ("Critical battery: " ++ toString (15 : Int) ++ "%") .critical 110 := by
    unfold monitor_battery
    rw [battery_emergency_default, battery_critical_default]
    rw [if_neg (by omega), if_pos (by omega)]
    have hs : should_send_alert
        (send_alert SafetyState.init .low_battery ("Low battery: " ++ toString (25 : Int) ++ "%") .warning 100)
        .critical_battery 110 = true := by
      unfold should_send_alert send_alert
      simp [SafetyState.init]
      norm_num
    simp [hs]
  rw [h2]
  simp [send_alert, SafetyState.init]

/-- Claim C8 (amended): the cooldown works per alert kind — once an alert of
kind `k` is sent at time `t`, a second alert of kind `k` is suppressed at any
time within 30 s of `t` — and, in particular, two battery readings in the
same (warning) severity band evaluated within the window produce exactly one
alert. -/
theorem alert_cooldown_per_kind (st : SafetyState) (k : AlertType)
    (msg : String) (lvl : SafetyLevel) (b1 b2 : Int) (t1 t2 u1 u2 : ℚ)
    (hcd : st.alert_cooldown = 30) :
    (u2 - u1 ≤ 30 →
      should_send_alert (send_alert st k msg lvl u1) k u2 = false) ∧
    (20 < b1 → b1 ≤ 30 → 20 < b2 → b2 ≤ 30 →
      30 < t1 - st.last_alert_time .low_battery → t2 - t1 ≤ 30 →
      (monitor_battery {} (monitor_battery {} st b1 t1) b2 t2).alert_history.length
        = st.alert_history.length + 1) := by
  have part1 : ∀ (k2 : AlertType) (m2 : String) (l2 : SafetyLevel) (v1 v2 : ℚ),
      v2 - v1 ≤ 30 →
      should_send_alert (send_alert st k2 m2 l2 v1) k2 v2 = false := by
    intro k2 m2 l2 v1 v2 hwin
    unfold should_send_alert send_alert
    simp [hcd]
    linarith
  refine ⟨part1 k msg lvl u1 u2, ?_⟩
  intro hb1l hb1u hb2l hb2u hfire hwin
  have h1 : monitor_battery {} st b1 t1
      = send_alert st .low_battery ("Low battery: " ++ toString b1 ++ "%")
          .warning t1 := by
    unfold monitor_battery
    rw [battery_emergency_default, battery_critical_default,
      battery_warning_default]
    rw [if_neg (by omega), if_neg (by omega), if_pos (by omega)]
    have hs : should_send_alert st .low_battery t1 = true := by
      unfold should_send_alert
      rw [hcd]
      exact decide_eq_true hfire
    simp [hs]
  rw [h1]
  have h2 : monitor_battery {}
        (send_alert st .low_battery ("Low battery: " ++ toString b1 ++ "%")
          .warning t1) b2 t2
      = send_alert st .low_battery ("Low battery: " ++ toString b1 ++ "%")
          .warning t1 := by
    unfold monitor_battery
    rw [battery_emergency_default, battery_critical_default,
      battery_warning_default]
    rw [if_neg (by omega), if_neg (by omega), if_pos (by omega)]
    have hs := part1 .low_battery
      ("Low battery: " ++ toString b1 ++ "%") .warning t1 t2 hwin
    simp [hs]
  rw [h2]
  simp [send_alert]

/-- Claim C8 witness: a cooldown suppression for a concrete kind and two
warning-band readings (25 % then 28 %) 10 s apart that yield exactly one
alert on a fresh monitor state. -/
theorem alert_cooldown_per_kind_witness :
    should_send_alert
        (send_alert SafetyState.init .gps_loss "GPS fix lost" .critical 100)
        .gps_loss 120 = false ∧
    (monitor_battery {} (monitor_battery {} SafetyState.init 25 100) 28 110).alert_history.length
      = 1 := by
  have h := alert_cooldown_per_kind SafetyState.init .gps_loss "GPS fix lost"
    .critical 25 28 100 110 100 120 rfl
  refine ⟨h.1 (by norm_num), ?_⟩
  have h2 := h.2 (by norm_num) (by norm_num) (by norm_num) (by norm_num)
    (by simp [SafetyState.init]; norm_num) (by norm_num)
  simpa [SafetyState.init] using h2

lemma processUploadMsgs_append (start : MissionUploadState × Bool)
    (l1 l2 : List UploadMsg) :
    processUploadMsgs start (l1 ++ l2)
      = processUploadMsgs (processUploadMsgs start l1) l2 := by
  unfold processUploadMsgs
  exact List.foldl_append _ _ l1 l2

/-- After answering requests `0, 1, ..., k-1` in order, the session has
recorded exactly those sequence numbers, sent `k` waypoints, and have moved
to `waiting_ack` exactly when all `ws.length` waypoints have been requested;
no step set the completion event. -/
lemma process_requests_range (ws : List Waypoint) (k : ℕ) (hk : k ≤ ws.length) :
    processUploadMsgs (initUploadState ws, false)
        ((List.range k).map UploadMsg.request)
      = ({ initUploadState ws with
            requests_received := Finset.range k,
            waypoints_sent := k,
            phase := if 0 < k ∧ ws.length ≤ k then .waiting_ack else .count_sent },
         false) := by
  induction k with
  | zero =>
    simp [processUploadMsgs, initUploadState]
  | succ k ih =>
    have hk2 : k ≤ ws.length := Nat.le_of_succ_le hk
    have hklt : k < ws.length := hk
    rw [List.range_succ, List.map_append, processUploadMsgs_append, ih hk2]
    simp only [List.map_cons, List.map_nil, processUploadMsgs, List.foldl_cons,
      List.foldl_nil, handle_mission_upload_message, handle_request,
      initUploadState]
    rw [if_pos hklt, if_neg (by simp), ← Finset.range_succ, Finset.card_range]
    by_cases hle : ws.length ≤ k + 1
    · rw [if_pos hle, if_pos ⟨Nat.succ_pos k, hle⟩]
      simp
    · rw [if_neg hle, if_neg (fun h2 => Nat.not_le.mpr hklt h2.2),
        if_neg (fun h2 => hle h2.2)]
      simp

/-- Claim C3: for every waypoint count `N ≥ 1`, answering every request
`0..N-1` moves the session to `waiting_ack`, and a subsequent accepted
`MISSION_ACK` ends it in phase `complete` with `success = true`, sets the
completion event, and makes the upload thread report success. -/
theorem upload_success (ws : List Waypoint) (h : 1 ≤ ws.length) :
    (processUploadMsgs (initUploadState ws, false)
        ((List.range ws.length).map UploadMsg.request)).1.phase = .waiting_ack ∧
    (processUploadMsgs (initUploadState ws, false)
        ((List.range ws.length).map UploadMsg.request
          ++ [UploadMsg.ack 0])).1.phase = .complete ∧
    (processUploadMsgs (initUploadState ws, false)
        ((List.range ws.length).map UploadMsg.request
          ++ [UploadMsg.ack 0])).1.success = true ∧
    (processUploadMsgs (initUploadState ws, false)
        ((List.range ws.length).map UploadMsg.request
          ++ [UploadMsg.ack 0])).2 = true ∧
    thread_report
        (processUploadMsgs (initUploadState ws, false)
          ((List.range ws.length).map UploadMsg.request ++ [UploadMsg.ack 0])).2
        (processUploadMsgs (initUploadState ws, false)
          ((List.range ws.length).map UploadMsg.request ++ [UploadMsg.ack 0])).1
        30
      = (true, "Mission uploaded successfully") := by
  have hreq := process_requests_range ws ws.length le_rfl
  have h0 : 0 < ws.length := h
  refine ⟨?_, ?_, ?_, ?_, ?_⟩
  · rw [hreq]
    simp [h0]
  · rw [processUploadMsgs_append, hreq]
    simp [processUploadMsgs, handle_mission_upload_message]
  · rw [processUploadMsgs_append, hreq]
    simp [processUploadMsgs, handle_mission_upload_message]
  · rw [processUploadMsgs_append, hreq]
    simp [processUploadMsgs, handle_mission_upload_message]
  · rw [processUploadMsgs_append, hreq]
    simp [processUploadMsgs, handle_mission_upload_message, thread_report]

/-- Claim C3 witness: a concrete 1-waypoint session answering request 0 and
receiving the accepted ack ends complete, successful and reported as such. -/
theorem upload_success_witness :
    (processUploadMsgs (initUploadState [{}], false)
        ((List.range 1).map UploadMsg.request ++ [UploadMsg.ack 0])).1.phase
      = .complete ∧
    (processUploadMsgs (initUploadState [{}], false)
        ((List.range 1).map UploadMsg.request ++ [UploadMsg.ack 0])).1.success
      = true ∧
    thread_report
        (processUploadMsgs (initUploadState [{}], false)
          ((List.range 1).map UploadMsg.request ++ [UploadMsg.ack 0])).2
        (processUploadMsgs (initUploadState [{}], false)
          ((List.range 1).map UploadMsg.request ++ [UploadMsg.ack 0])).1
        30
      = (true, "Mission uploaded successfully") := by
  have h := upload_success [{}] (by decide)
  exact ⟨h.2.1, h.2.2.1, h.2.2.2.2⟩

/-- When the waypoint dict covers every surviving index, the re-indexing
loop skips nothing: it maps each position to the dict record with the index
field overwritten. -/
lemma reindex_enumFrom (dict : Int → Option MissionRecord) (l : List Int)
    (n : ℕ) (h : ∀ i ∈ l, (dict i).isSome) :
    ((l.enumFrom n).filterMap fun p =>
        (dict p.2).map fun r => { r with idx := Int.ofNat p.1 })
      = (l.enumFrom n).map fun p =>
          { (dict p.2).getD default with idx := Int.ofNat p.1 } := by
  induction l generalizing n with
  | nil => rfl
  | cons a l ih =>
    rw [List.enumFrom_cons, List.filterMap_cons, List.map_cons]
    obtain ⟨r, hr⟩ := Option.isSome_iff_exists.mp (h a (List.mem_cons_self a l))
    rw [ih (n + 1) (fun i hi => h i (List.mem_cons_of_mem a hi))]
    simp [hr]

lemma reindex_map_idx (dict : Int → Option MissionRecord) (l : List Int)
    (h : ∀ i ∈ l, (dict i).isSome) :
    (reindex_waypoints dict l).map MissionRecord.idx
      = (List.range l.length).map Int.ofNat := by
  unfold reindex_waypoints
  rw [show l.enum = l.enumFrom 0 from rfl, reindex_enumFrom dict l 0 h,
    List.map_map,
    show (MissionRecord.idx ∘ fun p : ℕ × Int =>
        { (dict p.2).getD default with idx := Int.ofNat p.1 })
      = Int.ofNat ∘ Prod.fst from rfl,
    ← List.map_map, List.enumFrom_map_fst, ← List.range_eq_range']

lemma reindex_map_rest (dict : Int → Option MissionRecord) (l : List Int)
    (h : ∀ i ∈ l, (dict i).isSome) :
    (reindex_waypoints dict l).map MissionRecord.rest
      = l.map (fun i => ((dict i).getD default).rest) := by
  unfold reindex_waypoints
  rw [show l.enum = l.enumFrom 0 from rfl, reindex_enumFrom dict l 0 h,
    List.map_map,
    show (MissionRecord.rest ∘ fun p : ℕ × Int =>
        { (dict p.2).getD default with idx := Int.ofNat p.1 })
      = (fun i => ((dict i).getD default).rest) ∘ Prod.snd from rfl,
    ← List.map_map, List.enumFrom_map_snd]

/-- Claim C5: when the stored original index list contains both the HOME
index 0 and the chosen resume index, and the mission file provides a record
for every surviving index, the resume plan places index 0 first followed by
every original index from the resume index onward with the duplicate 0
skipped, and the upload list re-sequences those records contiguously from 0 —
each record's stored index rewritten to its new position and every other
field (`rest`) copied unchanged. -/
theorem resume_reindexing (original : List Int) (rf : Int)
    (dict : Int → Option MissionRecord)
    (h0 : 0 ∈ original) (hrf : rf ∈ original)
    (hdict : ∀ i ∈ resume_wp_indices original rf, (dict i).isSome)
    (hlen : 1 < (resume_wp_indices original rf).length) :
    resume_plan original rf = some (resume_wp_indices original rf) ∧
    resume_wp_indices original rf
      = 0 :: (original.drop (original.indexOf rf)).filter (fun w => w ≠ 0) ∧
    (reindex_waypoints dict (resume_wp_indices original rf)).map
        MissionRecord.idx
      = (List.range (resume_wp_indices original rf).length).map Int.ofNat ∧
    (reindex_waypoints dict (resume_wp_indices original rf)).map
        MissionRecord.rest
      = (resume_wp_indices original rf).map
          (fun i => ((dict i).getD default).rest) := by
  refine ⟨?_, ?_, reindex_map_idx dict _ hdict, reindex_map_rest dict _ hdict⟩
  · simp [resume_plan, List.ne_nil_of_mem h0, hrf, not_le.mpr hlen]
  · unfold resume_wp_indices
    rw [if_pos h0]
    rfl

/-- Claim C5 witness: originals `[0,1,2,3,4,5]` resumed from `3` give
pre-rewrite indices `[0,3,4,5]`, rewritten stored indices `[0,1,2,3]`, with
the non-index fields of new index 0 identical to those of original index 0
and of new index 1 identical to those of original index 3. -/
theorem resume_reindexing_witness :
    resume_plan [0, 1, 2, 3, 4, 5] 3 = some [0, 3, 4, 5] ∧
    (reindex_waypoints
        (fun i => if i = 0 then some ⟨0, ["home"]⟩
          else if i = 1 then some ⟨1, ["w1"]⟩
          else if i = 2 then some ⟨2, ["w2"]⟩
          else if i = 3 then some ⟨3, ["w3"]⟩
          else if i = 4 then some ⟨4, ["w4"]⟩
          else if i = 5 then some ⟨5, ["w5"]⟩
          else none)
        (resume_wp_indices [0, 1, 2, 3, 4, 5] 3)).map MissionRecord.idx
      = [0, 1, 2, 3] ∧
    (reindex_waypoints
        (fun i => if i = 0 then some ⟨0, ["home"]⟩
          else if i = 1 then some ⟨1, ["w1"]⟩
          else if i = 2 then some ⟨2, ["w2"]⟩
          else if i = 3 then some ⟨3, ["w3"]⟩
          else if i = 4 then some ⟨4, ["w4"]⟩
          else if i = 5 then some ⟨5, ["w5"]⟩
          else none)
        (resume_wp_indices [0, 1, 2, 3, 4, 5] 3)).map MissionRecord.rest
      = [["home"], ["w3"], ["w4"], ["w5"]] := by
  have h := resume_reindexing [0, 1, 2, 3, 4, 5] 3
    (fun i => if i = 0 then some ⟨0, ["home"]⟩
      else if i = 1 then some ⟨1, ["w1"]⟩
      else if i = 2 then some ⟨2, ["w2"]⟩
      else if i = 3 then some ⟨3, ["w3"]⟩
      else if i = 4 then some ⟨4, ["w4"]⟩
      else if i = 5 then some ⟨5, ["w5"]⟩
      else none)
    (by decide) (by decide) (by decide) (by decide)
  refine ⟨?_, ?_, ?_⟩
  · rw [h.1]
    rfl
  · rw [h.2.2.1]
    rfl
  · rw [h.2.2.2]
    rfl

end React
